import Mathlib

/-!
Shallow embedding of the booking settlement engine of the event-ticketing
backend (Express + Prisma).  The `router.post "/"` handler of the
transactions route is translated into the pure state-transformer
`MiniEvent.bookTickets` below; the store is an explicit `DB` record and the
Prisma `$transaction` scope is modelled by returning either a typed error
with the original state kept (rollback) or the updated state (commit).
Monetary amounts and counters are JavaScript numbers used as integers, so
they become `Int`; `Math.floor (a / b)` becomes `Int.fdiv a b`.
Timestamps are `Nat`; the only calendar arithmetic in the code, `setMonth
(getMonth () + 3)` inside `addPointsToUser`, is modelled by
`addThreeMonths`, with months as the time unit.
The helper `addPointsToUser` of `src/lib/utils.ts` issues its writes
through the global client `db`, not through the `prisma` handle of the
enclosing `$transaction`; the embedding therefore keeps those writes (the
`Credit`) separate from the transaction-scoped state, and
`bookTicketsAborted` gives the store contents when the atomic unit aborts
at commit time: the transaction-scoped writes roll back, the escaped
credit writes persist.
-/

namespace MiniEvent

inductive EventStatus
  | DRAFT
  | PUBLISHED
  | CANCELLED
  | COMPLETED
deriving DecidableEq, Repr

inductive TxStatus
  | PENDING
  | COMPLETED
  | CANCELLED
  | REFUNDED
deriving DecidableEq, Repr

structure Ticket where
  id : Nat
  eventId : Nat
  price : Int
  quantity : Int
  sold : Int
deriving DecidableEq, Repr

structure Event where
  id : Nat
  status : EventStatus
  availableSeats : Int
  bookedSeats : Int
deriving DecidableEq, Repr

structure DiscountCoupon where
  id : Nat
  userId : Nat
  code : String
  discountPercent : Int
  isUsed : Bool
  expiresAt : Nat
  createdAt : Nat
deriving DecidableEq, Repr

structure Point where
  id : Nat
  earnedById : Nat
  amount : Int
  isUsed : Bool
  usedById : Option Nat
  expiresAt : Nat
  createdAt : Nat
deriving DecidableEq, Repr

structure User where
  id : Nat
  pointsBalance : Int
deriving DecidableEq, Repr

structure Transaction where
  id : Nat
  userId : Nat
  eventId : Nat
  totalAmount : Int
  discountAmount : Int
  finalAmount : Int
  pointsUsed : Int
  status : TxStatus
deriving DecidableEq, Repr

structure TransactionItem where
  transactionId : Nat
  ticketId : Nat
  quantity : Int
  unitPrice : Int
  totalPrice : Int
deriving DecidableEq, Repr

structure TransactionCoupon where
  transactionId : Nat
  discountCouponId : Nat
deriving DecidableEq, Repr

structure DB where
  events : List Event
  tickets : List Ticket
  users : List User
  coupons : List DiscountCoupon
  points : List Point
  transactions : List Transaction
  transactionItems : List TransactionItem
  transactionCoupons : List TransactionCoupon
  nextId : Nat
deriving DecidableEq, Repr

structure RequestItem where
  ticketId : Nat
  quantity : Int
deriving DecidableEq, Repr

/-- Shape accepted by the zod transactionSchema: items with quantity ≥ 1
and pointsToUse ≥ 0 (default 0). The bounds themselves are stated by
`requestValid`. -/
structure BookingRequest where
  userId : Nat
  eventId : Nat
  items : List RequestItem
  couponCode : Option String
  pointsToUse : Int
deriving DecidableEq, Repr

/-- Bounds enforced by the zod transactionSchema before the handler body
runs: every item quantity is at least 1 and pointsToUse is nonnegative. -/
def requestValid (req : BookingRequest) : Prop :=
  (∀ it ∈ req.items, 1 ≤ it.quantity) ∧ 0 ≤ req.pointsToUse

/-- Errors thrown inside the db transaction callback of the create-transaction
handler.  The code has no coupon-related and no points-related throw. -/
inductive BookErr
  | eventNotFound
  | eventNotAvailable
  | ticketNotFound (ticketId : Nat)
  | notEnoughTickets (ticketId : Nat)
  | notEnoughSeats
  | userNotFound
deriving DecidableEq, Repr

/-- Embeds calculatePoints of src/lib/utils.ts: Math.floor (amount / 1000),
one point per 1000 IDR. -/
def calculatePoints (amount : Int) : Int :=
  Int.fdiv amount 1000

/-- Embeds the expiry computed by addPointsToUser of src/lib/utils.ts:
expiresAt.setMonth (getMonth () + 3); time is counted in months. -/
def addThreeMonths (t : Nat) : Nat :=
  t + 3

def findEvent (events : List Event) (eid : Nat) : Option Event :=
  events.find? (fun e => e.id == eid)

/-- Tickets included with the event (Prisma include tickets), i.e. the
tickets whose eventId is the event's id. -/
def eventTickets (db : DB) (eid : Nat) : List Ticket :=
  db.tickets.filter (fun t => t.eventId == eid)

def findUser (users : List User) (uid : Nat) : Option User :=
  users.find? (fun u => u.id == uid)

structure TicketUpdate where
  id : Nat
  quantity : Int
  price : Int
deriving DecidableEq, Repr

/-- Embeds the per-item validation loop of the handler: look up each item's
ticket among the event's tickets, fail if missing or if
sold + quantity > quantity, and accumulate totalAmount and the
ticketUpdates list. -/
def validateItems (tickets : List Ticket) :
    List RequestItem → Except BookErr (Int × List TicketUpdate)
  | [] => .ok (0, [])
  | item :: rest =>
    match tickets.find? (fun t => t.id == item.ticketId) with
    | none => .error (.ticketNotFound item.ticketId)
    | some t =>
      if t.sold + item.quantity > t.quantity then
        .error (.notEnoughTickets t.id)
      else
        match validateItems tickets rest with
        | .error e => .error e
        | .ok (restTotal, restUpdates) =>
          .ok (t.price * item.quantity + restTotal,
            ⟨t.id, item.quantity, t.price⟩ :: restUpdates)

/-- Embeds the totalTickets reduce: the sum of the requested quantities. -/
def totalQuantity (items : List RequestItem) : Int :=
  (items.map (fun it => it.quantity)).sum

/-- Embeds the explicit-coupon findFirst: first stored coupon with the given
code, unused, and expiresAt ≥ now.  The query has no userId filter. -/
def findCouponByCode (coupons : List DiscountCoupon) (c : String) (now : Nat) :
    Option DiscountCoupon :=
  coupons.find? (fun cp => cp.code == c && !cp.isUsed && decide (now ≤ cp.expiresAt))

/-- Embeds findFirst with orderBy discountPercent desc: the element with the
highest discountPercent, the earliest stored one among ties (the query has
no secondary sort key). -/
def selectBestCoupon : List DiscountCoupon → Option DiscountCoupon
  | [] => none
  | c :: rest =>
    match selectBestCoupon rest with
    | none => some c
    | some b => if b.discountPercent > c.discountPercent then some b else some c

/-- Embeds the auto-apply findFirst: among the user's unused, unexpired
coupons, the one with the highest discountPercent. -/
def autoCoupon (coupons : List DiscountCoupon) (uid : Nat) (now : Nat) :
    Option DiscountCoupon :=
  selectBestCoupon (coupons.filter
    (fun cp => cp.userId == uid && !cp.isUsed && decide (now ≤ cp.expiresAt)))

/-- Coupon chosen by the handler: the explicit-code branch when couponCode is
given, the auto-apply branch otherwise. -/
def selectedCoupon (db : DB) (req : BookingRequest) (now : Nat) :
    Option DiscountCoupon :=
  match req.couponCode with
  | some c => findCouponByCode db.coupons c now
  | none => autoCoupon db.coupons req.userId now

/-- Discount computed by the handler: Math.floor (totalAmount ×
discountPercent / 100) when a coupon was found, zero otherwise.  Note that
when an explicit code matches nothing the handler proceeds with zero
discount; it does not throw. -/
def discountOf (couponSel : Option DiscountCoupon) (totalAmount : Int) : Int :=
  match couponSel with
  | some cp => Int.fdiv (totalAmount * cp.discountPercent) 100
  | none => 0

/-- Points applied by the handler: Math.min of the requested points, the
user's cached balance, and the amount payable after discount. -/
def pointsUsedOf (db : DB) (req : BookingRequest) (now : Nat)
    (totalAmount : Int) (user : User) : Int :=
  min req.pointsToUse
    (min user.pointsBalance (totalAmount - discountOf (selectedCoupon db req now) totalAmount))

/-- Final charge: totalAmount − discountAmount − pointsUsed. -/
def finalAmountOf (db : DB) (req : BookingRequest) (now : Nat)
    (totalAmount : Int) (user : User) : Int :=
  totalAmount - discountOf (selectedCoupon db req now) totalAmount -
    pointsUsedOf db req now totalAmount user

/-- Embeds the FIFO consumption loop over the user's live points: returns the
ids of the grants marked used and their total amount.  A grant is consumed
only when its full amount fits in the remaining requirement; the loop stops
once the remainder reaches zero. -/
def fifoConsume (remaining : Int) : List Point → List Nat × Int
  | [] => ([], 0)
  | g :: rest =>
    if remaining ≤ 0 then ([], 0)
    else if g.amount ≤ remaining then
      let r := fifoConsume (remaining - g.amount) rest
      (g.id :: r.1, g.amount + r.2)
    else fifoConsume remaining rest

/-- Embeds the point.findMany of the debit step: the user's unused grants
with expiresAt ≥ now, ordered by createdAt ascending. -/
def userLivePoints (points : List Point) (uid : Nat) (now : Nat) : List Point :=
  List.insertionSort (fun a b => a.createdAt ≤ b.createdAt)
    (points.filter (fun g => g.earnedById == uid && !g.isUsed && decide (now ≤ g.expiresAt)))

/-- Embeds the per-id point.update calls that mark consumed grants used. -/
def markPointsUsed (points : List Point) (ids : List Nat) (uid : Nat) : List Point :=
  points.map (fun g =>
    if ids.contains g.id then { g with isUsed := true, usedById := some uid } else g)

/-- Embeds user.update with a pointsBalance increment or decrement. -/
def updateUserBalance (users : List User) (uid : Nat) (delta : Int) : List User :=
  users.map (fun u =>
    if u.id == uid then { u with pointsBalance := u.pointsBalance + delta } else u)

/-- Embeds one ticket.update with a sold increment. -/
def applyTicketUpdate (tickets : List Ticket) (u : TicketUpdate) : List Ticket :=
  tickets.map (fun t =>
    if t.id == u.id then { t with sold := t.sold + u.quantity } else t)

/-- Embeds the sequence of ticket.update calls, one per line item. -/
def applyTicketUpdates (tickets : List Ticket) : List TicketUpdate → List Ticket
  | [] => tickets
  | u :: rest => applyTicketUpdates (applyTicketUpdate tickets u) rest

/-- Writes of addPointsToUser (src/lib/utils.ts): one new grant plus a
pointsBalance increment.  These go through the global client, outside the
enclosing db transaction. -/
structure Credit where
  userId : Nat
  grant : Point
deriving DecidableEq, Repr

def applyCredit (db : DB) : Option Credit → DB
  | none => db
  | some c =>
    { db with
      points := db.points ++ [c.grant]
      users := updateUserBalance db.users c.userId c.grant.amount }

/-- Success tail of the transaction callback, after the event, item, seat and
user lookups have all passed: pricing, transaction and item creation,
inventory increments, coupon consumption, points debit, and the earned
credit (kept separate because addPointsToUser writes through the global
client). -/
def settle (db : DB) (req : BookingRequest) (now : Nat)
    (totalAmount : Int) (ticketUpdates : List TicketUpdate) (user : User) :
    DB × Transaction × Option Credit :=
  let couponSel := selectedCoupon db req now
  let discountAmount := discountOf couponSel totalAmount
  let pointsToUse := pointsUsedOf db req now totalAmount user
  let finalAmount := finalAmountOf db req now totalAmount user
  let txn : Transaction :=
    { id := db.nextId
      userId := req.userId
      eventId := req.eventId
      totalAmount := totalAmount
      discountAmount := discountAmount
      finalAmount := finalAmount
      pointsUsed := pointsToUse
      status := TxStatus.COMPLETED }
  let newItems := ticketUpdates.map (fun u =>
    ({ transactionId := txn.id
       ticketId := u.id
       quantity := u.quantity
       unitPrice := u.price
       totalPrice := u.price * u.quantity } : TransactionItem))
  let tickets2 := applyTicketUpdates db.tickets ticketUpdates
  let events2 := db.events.map (fun e =>
    if e.id == req.eventId then
      { e with bookedSeats := e.bookedSeats + totalQuantity req.items }
    else e)
  let coupons2 :=
    match couponSel with
    | some cp => db.coupons.map (fun c =>
        if c.id == cp.id then { c with isUsed := true } else c)
    | none => db.coupons
  let txCoupons2 := db.transactionCoupons ++
    (match couponSel with
     | some cp => [({ transactionId := txn.id, discountCouponId := cp.id } :
         TransactionCoupon)]
     | none => [])
  let usersPoints :=
    if pointsToUse > 0 then
      let marked := (fifoConsume pointsToUse (userLivePoints db.points req.userId now)).1
      (updateUserBalance db.users req.userId (-pointsToUse),
       markPointsUsed db.points marked req.userId)
    else (db.users, db.points)
  let earned := calculatePoints finalAmount
  let credit : Option Credit :=
    if earned > 0 then
      some { userId := req.userId
             grant :=
               { id := db.nextId + 1
                 earnedById := req.userId
                 amount := earned
                 isUsed := false
                 usedById := none
                 expiresAt := addThreeMonths now
                 createdAt := now } }
    else none
  ({ events := events2
     tickets := tickets2
     users := usersPoints.1
     coupons := coupons2
     points := usersPoints.2
     transactions := db.transactions ++ [txn]
     transactionItems := db.transactionItems ++ newItems
     transactionCoupons := txCoupons2
     nextId := db.nextId + 2 }, txn, credit)

/-- Body of the db.transaction callback: lookups and validations in the
code's order, then `settle`. -/
def bookCallback (db : DB) (req : BookingRequest) (now : Nat) :
    Except BookErr (DB × Transaction × Option Credit) :=
  match findEvent db.events req.eventId with
  | none => .error .eventNotFound
  | some event =>
    if event.status ≠ EventStatus.PUBLISHED then .error .eventNotAvailable
    else
      match validateItems (eventTickets db event.id) req.items with
      | .error e => .error e
      | .ok (totalAmount, ticketUpdates) =>
        if event.bookedSeats + totalQuantity req.items > event.availableSeats then
          .error .notEnoughSeats
        else
          match findUser db.users req.userId with
          | none => .error .userNotFound
          | some user => .ok (settle db req now totalAmount ticketUpdates user)

/-- The whole booking attempt when the atomic unit commits: the callback's
transaction-scoped writes plus the escaped credit writes.  On error the
store is unchanged (rollback); only the error is returned. -/
def bookTickets (db : DB) (req : BookingRequest) (now : Nat) :
    Except BookErr (DB × Transaction) :=
  match bookCallback db req now with
  | .error e => .error e
  | .ok (db2, txn, credit) => .ok (applyCredit db2 credit, txn)

/-- Store contents when the atomic unit aborts at commit time (for example a
serialization failure): every transaction-scoped write rolls back, but the
credit written through the global client persists. -/
def bookTicketsAborted (db : DB) (req : BookingRequest) (now : Nat) : DB :=
  match bookCallback db req now with
  | .error _ => db
  | .ok (_, _, credit) => applyCredit db credit

/-- Total amount of a user's live grants: unused and unexpired, the sum the
denormalized pointsBalance cache is supposed to equal. -/
def liveSum (points : List Point) (uid : Nat) (now : Nat) : Int :=
  ((points.filter
    (fun g => g.earnedById == uid && !g.isUsed && decide (now ≤ g.expiresAt))).map
    (fun g => g.amount)).sum

/-! Projection lemmas for `settle` and `applyCredit`. -/

theorem settle_txn (db : DB) (req : BookingRequest) (now : Nat)
    (tot : Int) (ups : List TicketUpdate) (user : User) :
    (settle db req now tot ups user).2.1 =
      { id := db.nextId
        userId := req.userId
        eventId := req.eventId
        totalAmount := tot
        discountAmount := discountOf (selectedCoupon db req now) tot
        finalAmount := finalAmountOf db req now tot user
        pointsUsed := pointsUsedOf db req now tot user
        status := TxStatus.COMPLETED } := rfl

theorem settle_tickets (db : DB) (req : BookingRequest) (now : Nat)
    (tot : Int) (ups : List TicketUpdate) (user : User) :
    (settle db req now tot ups user).1.tickets = applyTicketUpdates db.tickets ups := rfl

theorem settle_events (db : DB) (req : BookingRequest) (now : Nat)
    (tot : Int) (ups : List TicketUpdate) (user : User) :
    (settle db req now tot ups user).1.events =
      db.events.map (fun e =>
        if e.id == req.eventId then
          { e with bookedSeats := e.bookedSeats + totalQuantity req.items }
        else e) := rfl

theorem settle_coupons (db : DB) (req : BookingRequest) (now : Nat)
    (tot : Int) (ups : List TicketUpdate) (user : User) :
    (settle db req now tot ups user).1.coupons =
      match selectedCoupon db req now with
      | some cp => db.coupons.map (fun c =>
          if c.id == cp.id then { c with isUsed := true } else c)
      | none => db.coupons := rfl

theorem settle_users (db : DB) (req : BookingRequest) (now : Nat)
    (tot : Int) (ups : List TicketUpdate) (user : User) :
    (settle db req now tot ups user).1.users =
      if pointsUsedOf db req now tot user > 0 then
        updateUserBalance db.users req.userId (-(pointsUsedOf db req now tot user))
      else db.users := by
  unfold settle
  by_cases hp : pointsUsedOf db req now tot user > 0 <;> simp [hp]

theorem settle_points (db : DB) (req : BookingRequest) (now : Nat)
    (tot : Int) (ups : List TicketUpdate) (user : User) :
    (settle db req now tot ups user).1.points =
      if pointsUsedOf db req now tot user > 0 then
        markPointsUsed db.points
          (fifoConsume (pointsUsedOf db req now tot user)
            (userLivePoints db.points req.userId now)).1 req.userId
      else db.points := by
  unfold settle
  by_cases hp : pointsUsedOf db req now tot user > 0 <;> simp [hp]

theorem settle_transactions (db : DB) (req : BookingRequest) (now : Nat)
    (tot : Int) (ups : List TicketUpdate) (user : User) :
    (settle db req now tot ups user).1.transactions =
      db.transactions ++ [(settle db req now tot ups user).2.1] := rfl

theorem settle_credit (db : DB) (req : BookingRequest) (now : Nat)
    (tot : Int) (ups : List TicketUpdate) (user : User) :
    (settle db req now tot ups user).2.2 =
      (if calculatePoints (finalAmountOf db req now tot user) > 0 then
        some { userId := req.userId
               grant :=
                 { id := db.nextId + 1
                   earnedById := req.userId
                   amount := calculatePoints (finalAmountOf db req now tot user)
                   isUsed := false
                   usedById := none
                   expiresAt := addThreeMonths now
                   createdAt := now } }
      else none) := rfl

theorem applyCredit_coupons (db : DB) (credit : Option Credit) :
    (applyCredit db credit).coupons = db.coupons := by
  cases credit <;> rfl

theorem applyCredit_tickets (db : DB) (credit : Option Credit) :
    (applyCredit db credit).tickets = db.tickets := by
  cases credit <;> rfl

theorem applyCredit_events (db : DB) (credit : Option Credit) :
    (applyCredit db credit).events = db.events := by
  cases credit <;> rfl

theorem applyCredit_transactions (db : DB) (credit : Option Credit) :
    (applyCredit db credit).transactions = db.transactions := by
  cases credit <;> rfl

/-! Inversion of a successful booking. -/

theorem bookCallback_ok {db : DB} {req : BookingRequest} {now : Nat}
    {out : DB × Transaction × Option Credit}
    (h : bookCallback db req now = .ok out) :
    ∃ event tot ups user,
      findEvent db.events req.eventId = some event ∧
      event.status = EventStatus.PUBLISHED ∧
      validateItems (eventTickets db event.id) req.items = .ok (tot, ups) ∧
      event.bookedSeats + totalQuantity req.items ≤ event.availableSeats ∧
      findUser db.users req.userId = some user ∧
      out = settle db req now tot ups user := by
  unfold bookCallback at h
  split at h
  · exact absurd h (by simp)
  next event hev =>
    split at h
    · exact absurd h (by simp)
    next hstat =>
      rw [not_not] at hstat
      split at h
      · exact absurd h (by simp)
      next tot ups hval =>
        split at h
        · exact absurd h (by simp)
        next hseats =>
          rw [not_lt] at hseats
          split at h
          · exact absurd h (by simp)
          next user huser =>
            exact ⟨event, tot, ups, user, hev, hstat, hval, hseats, huser,
              (Except.ok.inj h).symm⟩

theorem bookTickets_ok {db : DB} {req : BookingRequest} {now : Nat}
    {db' : DB} {txn : Transaction}
    (h : bookTickets db req now = .ok (db', txn)) :
    ∃ event tot ups user,
      findEvent db.events req.eventId = some event ∧
      event.status = EventStatus.PUBLISHED ∧
      validateItems (eventTickets db event.id) req.items = .ok (tot, ups) ∧
      event.bookedSeats + totalQuantity req.items ≤ event.availableSeats ∧
      findUser db.users req.userId = some user ∧
      db' = applyCredit (settle db req now tot ups user).1
        (settle db req now tot ups user).2.2 ∧
      txn = (settle db req now tot ups user).2.1 := by
  unfold bookTickets at h
  split at h
  · exact absurd h (by simp)
  next db2 txn2 credit hcb =>
    obtain ⟨event, tot, ups, user, hev, hstat, hval, hseats, huser, hout⟩ :=
      bookCallback_ok hcb
    obtain ⟨h1, h2⟩ := Prod.mk.inj (Except.ok.inj h)
    refine ⟨event, tot, ups, user, hev, hstat, hval, hseats, huser, ?_, ?_⟩
    · rw [← h1, ← hout]
    · rw [← h2, ← hout]

/-! Facts about the item-validation loop. -/

theorem validateItems_ids {tks : List Ticket} :
    ∀ {items : List RequestItem} {tot : Int} {ups : List TicketUpdate},
      validateItems tks items = .ok (tot, ups) →
      ups.map (fun u => u.id) = items.map (fun it => it.ticketId)
  | [], _, _, h => by
    simp only [validateItems, Except.ok.injEq, Prod.mk.injEq] at h
    simp [← h.2]
  | item :: rest, tot, ups, h => by
    cases hf : tks.find? (fun t => t.id == item.ticketId) with
    | none => simp only [validateItems, hf] at h; exact Except.noConfusion h
    | some t =>
      by_cases hcap : t.sold + item.quantity > t.quantity
      · simp only [validateItems, hf, if_pos hcap] at h
        exact Except.noConfusion h
      · cases hr : validateItems tks rest with
        | error e =>
          simp only [validateItems, hf, if_neg hcap, hr] at h
          exact Except.noConfusion h
        | ok p =>
          obtain ⟨ptot, pups⟩ := p
          simp only [validateItems, hf, if_neg hcap, hr, Except.ok.injEq,
            Prod.mk.injEq] at h
          have hid : t.id = item.ticketId := by
            have := List.find?_some hf
            simpa using this
          have ih := @validateItems_ids tks rest ptot pups hr
          simp [← h.2, hid, ih]

theorem validateItems_mem {tks : List Ticket} :
    ∀ {items : List RequestItem} {tot : Int} {ups : List TicketUpdate},
      validateItems tks items = .ok (tot, ups) →
      ∀ u ∈ ups, ∃ t ∈ tks, t.id = u.id ∧ u.price = t.price ∧
        t.sold + u.quantity ≤ t.quantity
  | [], _, _, h => by
    simp only [validateItems, Except.ok.injEq, Prod.mk.injEq] at h
    simp [← h.2]
  | item :: rest, tot, ups, h => by
    cases hf : tks.find? (fun t => t.id == item.ticketId) with
    | none => simp only [validateItems, hf] at h; exact Except.noConfusion h
    | some t =>
      by_cases hcap : t.sold + item.quantity > t.quantity
      · simp only [validateItems, hf, if_pos hcap] at h
        exact Except.noConfusion h
      · cases hr : validateItems tks rest with
        | error e =>
          simp only [validateItems, hf, if_neg hcap, hr] at h
          exact Except.noConfusion h
        | ok p =>
          obtain ⟨ptot, pups⟩ := p
          simp only [validateItems, hf, if_neg hcap, hr, Except.ok.injEq,
            Prod.mk.injEq] at h
          intro u hu
          rw [← h.2] at hu
          rcases List.mem_cons.mp hu with huh | hut
          · refine ⟨t, List.mem_of_find?_eq_some hf, ?_, ?_, ?_⟩ <;>
              (simp [huh]; try omega)
          · exact @validateItems_mem tks rest ptot pups hr u hut

theorem validateItems_total_nonneg {tks : List Ticket} :
    ∀ {items : List RequestItem} {tot : Int} {ups : List TicketUpdate},
      validateItems tks items = .ok (tot, ups) →
      (∀ t ∈ tks, 0 ≤ t.price) → (∀ it ∈ items, 1 ≤ it.quantity) →
      0 ≤ tot
  | [], _, _, h, _, _ => by
    simp only [validateItems, Except.ok.injEq, Prod.mk.injEq] at h
    omega
  | item :: rest, tot, ups, h, hp, hq => by
    cases hf : tks.find? (fun t => t.id == item.ticketId) with
    | none => simp only [validateItems, hf] at h; exact Except.noConfusion h
    | some t =>
      by_cases hcap : t.sold + item.quantity > t.quantity
      · simp only [validateItems, hf, if_pos hcap] at h
        exact Except.noConfusion h
      · cases hr : validateItems tks rest with
        | error e =>
          simp only [validateItems, hf, if_neg hcap, hr] at h
          exact Except.noConfusion h
        | ok p =>
          obtain ⟨ptot, pups⟩ := p
          simp only [validateItems, hf, if_neg hcap, hr, Except.ok.injEq,
            Prod.mk.injEq] at h
          have hrest : 0 ≤ ptot :=
            @validateItems_total_nonneg tks rest ptot pups hr hp
              (fun it hit => hq it (List.mem_cons_of_mem _ hit))
          have hpr : 0 ≤ t.price := hp t (List.mem_of_find?_eq_some hf)
          have hqt : 1 ≤ item.quantity := hq item (List.mem_cons_self _ _)
          have hnn : 0 ≤ t.price * item.quantity := mul_nonneg hpr (by omega)
          omega

/-! Facts about coupon selection. -/

theorem selectBestCoupon_none {l : List DiscountCoupon}
    (h : selectBestCoupon l = none) : l = [] := by
  cases l with
  | nil => rfl
  | cons c rest =>
    exfalso
    cases hr : selectBestCoupon rest with
    | none => simp [selectBestCoupon, hr] at h
    | some b =>
      simp only [selectBestCoupon, hr] at h
      by_cases hgt : b.discountPercent > c.discountPercent
      · rw [if_pos hgt] at h; exact Option.noConfusion h
      · rw [if_neg hgt] at h; exact Option.noConfusion h

theorem selectBestCoupon_mem :
    ∀ {l : List DiscountCoupon} {cp : DiscountCoupon},
      selectBestCoupon l = some cp → cp ∈ l
  | [], _, h => by simp [selectBestCoupon] at h
  | c :: rest, cp, h => by
    cases hr : selectBestCoupon rest with
    | none =>
      simp only [selectBestCoupon, hr, Option.some.injEq] at h
      simp [← h]
    | some b =>
      simp only [selectBestCoupon, hr] at h
      by_cases hgt : b.discountPercent > c.discountPercent
      · rw [if_pos hgt] at h
        obtain rfl : b = cp := Option.some.inj h
        exact List.mem_cons_of_mem _ (selectBestCoupon_mem hr)
      · rw [if_neg hgt] at h
        obtain rfl : c = cp := Option.some.inj h
        exact List.mem_cons_self _ _

theorem selectBestCoupon_maximal :
    ∀ {l : List DiscountCoupon} {cp : DiscountCoupon},
      selectBestCoupon l = some cp →
      ∀ c ∈ l, c.discountPercent ≤ cp.discountPercent
  | [], _, h => by simp [selectBestCoupon] at h
  | c :: rest, cp, h => by
    cases hr : selectBestCoupon rest with
    | none =>
      have hnil : rest = [] := selectBestCoupon_none hr
      subst hnil
      simp only [selectBestCoupon, Option.some.injEq] at h
      intro x hx
      rcases List.mem_singleton.mp hx with rfl
      rw [← h]
    | some b =>
      simp only [selectBestCoupon, hr] at h
      intro x hx
      rcases List.mem_cons.mp hx with rfl | hxr
      · by_cases hgt : b.discountPercent > x.discountPercent
        · rw [if_pos hgt] at h
          obtain rfl : b = cp := Option.some.inj h
          omega
        · rw [if_neg hgt] at h
          obtain rfl : x = cp := Option.some.inj h
          exact le_refl _
      · have hb := selectBestCoupon_maximal hr x hxr
        by_cases hgt : b.discountPercent > c.discountPercent
        · rw [if_pos hgt] at h
          obtain rfl : b = cp := Option.some.inj h
          exact hb
        · rw [if_neg hgt] at h
          obtain rfl : c = cp := Option.some.inj h
          omega

theorem selectedCoupon_mem {db : DB} {req : BookingRequest} {now : Nat}
    {cp : DiscountCoupon} (h : selectedCoupon db req now = some cp) :
    cp ∈ db.coupons := by
  unfold selectedCoupon at h
  cases hc : req.couponCode with
  | some c =>
    rw [hc] at h
    exact List.mem_of_find?_eq_some h
  | none =>
    rw [hc] at h
    unfold autoCoupon at h
    exact (List.mem_filter.mp (selectBestCoupon_mem h)).1

/-! Facts about the points-debit loop. -/

theorem fifoConsume_total_le :
    ∀ (l : List Point) (r : Int), 0 ≤ r → (fifoConsume r l).2 ≤ r
  | [], r, hr => by simpa [fifoConsume] using hr
  | g :: rest, r, hr => by
    by_cases h0 : r ≤ 0
    · simp only [fifoConsume, if_pos h0]
      omega
    · by_cases hg : g.amount ≤ r
      · have ih := fifoConsume_total_le rest (r - g.amount) (by omega)
        simp only [fifoConsume, if_neg h0, if_pos hg]
        omega
      · have ih := fifoConsume_total_le rest r hr
        simp only [fifoConsume, if_neg h0, if_neg hg]
        exact ih

theorem findUser_updateUserBalance (l : List User) (uid : Nat) (d : Int) :
    findUser (updateUserBalance l uid d) uid =
      (findUser l uid).map (fun u => { u with pointsBalance := u.pointsBalance + d }) := by
  induction l with
  | nil => rfl
  | cons u rest ih =>
    by_cases hu : (u.id == uid) = true
    · have hid : (({ u with pointsBalance := u.pointsBalance + d } : User).id == uid) = true := by
        simpa using hu
      simp [updateUserBalance, findUser, List.find?, hu, hid]
    · have hcons : updateUserBalance (u :: rest) uid d = u :: updateUserBalance rest uid d := by
        simp only [updateUserBalance, List.map_cons, if_neg hu]
        try rfl
      rw [hcons]
      unfold findUser at ih ⊢
      simp only [List.find?, Bool.not_eq_true] at hu ⊢
      rw [hu]
      exact ih

/-! Facts about the ticket-increment loop. -/

/-- Net sold increment a given ticket id receives from a list of updates. -/
def soldDelta (tid : Nat) (ups : List TicketUpdate) : Int :=
  ((ups.filter (fun u => u.id == tid)).map (fun u => u.quantity)).sum

theorem soldDelta_nil (tid : Nat) : soldDelta tid [] = 0 := rfl

theorem soldDelta_cons (tid : Nat) (u : TicketUpdate) (ups : List TicketUpdate) :
    soldDelta tid (u :: ups) =
      (if u.id == tid then u.quantity else 0) + soldDelta tid ups := by
  by_cases h : (u.id == tid) = true
  · simp [soldDelta, List.filter_cons, h]
  · simp [soldDelta, List.filter_cons, h]

theorem applyTicketUpdates_eq (tickets : List Ticket) :
    ∀ (ups : List TicketUpdate),
      applyTicketUpdates tickets ups =
        tickets.map (fun t => { t with sold := t.sold + soldDelta t.id ups }) := by
  intro ups
  induction ups generalizing tickets with
  | nil =>
    simp only [applyTicketUpdates, soldDelta_nil]
    have hfun : (fun t : Ticket => { t with sold := t.sold + 0 }) = fun t => t := by
      funext t
      cases t
      simp
    rw [hfun]
    simp
  | cons u rest ih =>
    rw [applyTicketUpdates, ih (applyTicketUpdate tickets u)]
    unfold applyTicketUpdate
    rw [List.map_map]
    apply List.map_congr_left
    intro t _
    obtain ⟨tid, tev, tpr, tq, ts⟩ := t
    simp only [Function.comp, soldDelta_cons]
    by_cases h : tid = u.id
    · subst h
      simp [Ticket.mk.injEq]
      try omega
    · have h2 : ¬ u.id = tid := fun e => h e.symm
      simp [h, h2, Ticket.mk.injEq]
      try omega

theorem soldDelta_of_not_mem {tid : Nat} {ups : List TicketUpdate}
    (h : tid ∉ ups.map (fun u => u.id)) : soldDelta tid ups = 0 := by
  induction ups with
  | nil => rfl
  | cons u rest ih =>
    simp only [List.map_cons, List.mem_cons] at h
    push_neg at h
    have hb : (u.id == tid) = false := by
      simp only [beq_eq_false_iff_ne, ne_eq]
      exact fun e => h.1 e.symm
    rw [soldDelta_cons, hb]
    simp [ih h.2]

theorem soldDelta_of_nodup {u : TicketUpdate} {ups : List TicketUpdate}
    (hnd : (ups.map (fun u => u.id)).Nodup) (hm : u ∈ ups) :
    soldDelta u.id ups = u.quantity := by
  induction ups with
  | nil => exact absurd hm (List.not_mem_nil u)
  | cons v rest ih =>
    simp only [List.map_cons, List.nodup_cons] at hnd
    rw [soldDelta_cons]
    rcases List.mem_cons.mp hm with rfl | hmr
    · rw [if_pos (by simp)]
      have : u.id ∉ rest.map (fun u => u.id) := hnd.1
      rw [soldDelta_of_not_mem this]
      omega
    · have hvid : v.id ≠ u.id := by
        intro e
        exact hnd.1 (e ▸ List.mem_map_of_mem (fun u => u.id) hmr)
      rw [if_neg (by simp [hvid])]
      simp [ih hnd.2 hmr]

/-! Bounds for the coupon discount. -/

theorem discountOf_nonneg {cp : Option DiscountCoupon} {tot : Int}
    (htot : 0 ≤ tot)
    (hpct : ∀ c, cp = some c → 0 ≤ c.discountPercent) :
    0 ≤ discountOf cp tot := by
  cases cp with
  | none => simp [discountOf]
  | some c =>
    have hc := hpct c rfl
    show 0 ≤ Int.fdiv (tot * c.discountPercent) 100
    rw [Int.fdiv_eq_ediv (tot * c.discountPercent) (by norm_num : (0:ℤ) ≤ 100)]
    exact Int.ediv_nonneg (mul_nonneg htot hc) (by norm_num)

theorem discountOf_le {cp : Option DiscountCoupon} {tot : Int}
    (htot : 0 ≤ tot)
    (hpct : ∀ c, cp = some c → c.discountPercent ≤ 100) :
    discountOf cp tot ≤ tot := by
  cases cp with
  | none => simpa [discountOf] using htot
  | some c =>
    have hc := hpct c rfl
    show Int.fdiv (tot * c.discountPercent) 100 ≤ tot
    rw [Int.fdiv_eq_ediv (tot * c.discountPercent) (by norm_num : (0:ℤ) ≤ 100)]
    calc tot * c.discountPercent / 100
        ≤ tot * 100 / 100 :=
          Int.ediv_le_ediv (by norm_num) (mul_le_mul_of_nonneg_left hc htot)
      _ = tot := Int.mul_ediv_cancel tot (by norm_num)

theorem pointsUsedOf_le_cap (db : DB) (req : BookingRequest) (now : Nat)
    (tot : Int) (user : User) :
    pointsUsedOf db req now tot user ≤ tot - discountOf (selectedCoupon db req now) tot := by
  unfold pointsUsedOf
  exact le_trans (min_le_right _ _) (min_le_right _ _)

/-! Claim theorems. -/

/-- C2: for every transaction persisted by a successful bookTickets call,
finalAmount = totalAmount − discountAmount − pointsUsed and finalAmount ≥ 0.
The statement needs no side conditions: pointsUsed is capped by the
remaining payable amount inside the Math.min, so the bound holds for every
store and request. -/
theorem c2_price_identity (db : DB) (req : BookingRequest) (now : Nat)
    (db' : DB) (txn : Transaction)
    (h : bookTickets db req now = .ok (db', txn)) :
    txn.finalAmount = txn.totalAmount - txn.discountAmount - txn.pointsUsed ∧
    0 ≤ txn.finalAmount := by
  obtain ⟨event, tot, ups, user, _, _, _, _, _, _, htxn⟩ := bookTickets_ok h
  subst htxn
  rw [settle_txn]
  refine ⟨rfl, ?_⟩
  show 0 ≤ finalAmountOf db req now tot user
  have h1 := pointsUsedOf_le_cap db req now tot user
  unfold finalAmountOf
  omega

/-- C3: the points debited satisfy
pointsUsed = min(requestedPoints, pointsBalance, totalAmount − discountAmount);
over-requests are capped silently (the error type of the handler has no
points-related failure at all). -/
theorem c3_points_cap (db : DB) (req : BookingRequest) (now : Nat)
    (db' : DB) (txn : Transaction) (user : User)
    (hu : findUser db.users req.userId = some user)
    (h : bookTickets db req now = .ok (db', txn)) :
    txn.pointsUsed =
      min req.pointsToUse
        (min user.pointsBalance (txn.totalAmount - txn.discountAmount)) := by
  obtain ⟨event, tot, ups, user2, _, _, _, _, hu2, _, htxn⟩ := bookTickets_ok h
  rw [hu] at hu2
  obtain rfl : user = user2 := Option.some.inj hu2
  subst htxn
  rw [settle_txn]
  rfl

/-- C8: when the event is missing the handler fails with the event-not-found
error, and when it exists with a status other than PUBLISHED it fails with
the event-not-available error; in both cases the store is unchanged, even
in the aborted-commit view, since no write (transaction-scoped or escaped)
has happened yet. -/
theorem c8_event_not_bookable (db : DB) (req : BookingRequest) (now : Nat) :
    (findEvent db.events req.eventId = none →
      bookTickets db req now = .error BookErr.eventNotFound ∧
      bookTicketsAborted db req now = db) ∧
    (∀ e, findEvent db.events req.eventId = some e →
      e.status ≠ EventStatus.PUBLISHED →
      bookTickets db req now = .error BookErr.eventNotAvailable ∧
      bookTicketsAborted db req now = db) := by
  constructor
  · intro hn
    have hcb : bookCallback db req now = .error .eventNotFound := by
      unfold bookCallback
      rw [hn]
    constructor
    · unfold bookTickets
      rw [hcb]
    · unfold bookTicketsAborted
      rw [hcb]
  · intro e he hstat
    have hcb : bookCallback db req now = .error .eventNotAvailable := by
      unfold bookCallback
      rw [he]
      exact if_pos hstat
    constructor
    · unfold bookTickets
      rw [hcb]
    · unfold bookTicketsAborted
      rw [hcb]

/-- C10: every transaction created by a successful bookTickets call is
persisted with status COMPLETED at creation time (the handler hard-codes
the status, so no PENDING transaction is ever written). -/
theorem c10_status_completed (db : DB) (req : BookingRequest) (now : Nat)
    (db' : DB) (txn : Transaction)
    (h : bookTickets db req now = .ok (db', txn)) :
    txn.status = TxStatus.COMPLETED ∧
    db'.transactions = db.transactions ++ [txn] := by
  obtain ⟨event, tot, ups, user, _, _, _, _, _, hdb', htxn⟩ := bookTickets_ok h
  constructor
  · subst htxn
    rfl
  · subst hdb' htxn
    rw [applyCredit_transactions, settle_transactions]

/-- C1 amended: when the request carries an explicit coupon code that matches
no stored coupon (missing, already used, or expired), the booking
continues with zero discount and leaves every coupon unchanged; the
handler has no InvalidCoupon failure. -/
theorem c1_invalid_coupon_ignored (db : DB) (req : BookingRequest) (now : Nat)
    (db' : DB) (txn : Transaction) (c : String)
    (hc : req.couponCode = some c)
    (hfind : findCouponByCode db.coupons c now = none)
    (h : bookTickets db req now = .ok (db', txn)) :
    txn.discountAmount = 0 ∧ db'.coupons = db.coupons := by
  obtain ⟨event, tot, ups, user, _, _, _, _, _, hdb', htxn⟩ := bookTickets_ok h
  have hsel : selectedCoupon db req now = none := by
    unfold selectedCoupon
    rw [hc]
    exact hfind
  constructor
  · subst htxn
    rw [settle_txn]
    show discountOf (selectedCoupon db req now) tot = 0
    rw [hsel]
    rfl
  · subst hdb'
    rw [applyCredit_coupons, settle_coupons, hsel]

/-- C9 amended: without an explicit code the handler picks, among the user's
unused unexpired coupons, one with the highest discountPercent — the first
in store order among ties, with no createdAt tie-break — marks it used and
applies its percentage; with no such coupon the discount is zero and the
coupons are untouched. -/
theorem c9_auto_coupon_selects_highest (db : DB) (req : BookingRequest)
    (now : Nat) (db' : DB) (txn : Transaction)
    (hc : req.couponCode = none)
    (h : bookTickets db req now = .ok (db', txn)) :
    (autoCoupon db.coupons req.userId now = none →
      txn.discountAmount = 0 ∧ db'.coupons = db.coupons) ∧
    (∀ cp, autoCoupon db.coupons req.userId now = some cp →
      cp ∈ db.coupons ∧ cp.userId = req.userId ∧ cp.isUsed = false ∧
      now ≤ cp.expiresAt ∧
      (∀ c ∈ db.coupons, c.userId = req.userId → c.isUsed = false →
        now ≤ c.expiresAt → c.discountPercent ≤ cp.discountPercent) ∧
      txn.discountAmount = Int.fdiv (txn.totalAmount * cp.discountPercent) 100 ∧
      db'.coupons = db.coupons.map
        (fun c => if c.id == cp.id then { c with isUsed := true } else c)) := by
  obtain ⟨event, tot, ups, user, _, _, _, _, _, hdb', htxn⟩ := bookTickets_ok h
  have hsel : selectedCoupon db req now = autoCoupon db.coupons req.userId now := by
    unfold selectedCoupon
    rw [hc]
  constructor
  · intro hnone
    rw [hnone] at hsel
    constructor
    · subst htxn
      rw [settle_txn]
      show discountOf (selectedCoupon db req now) tot = 0
      rw [hsel]
      rfl
    · subst hdb'
      rw [applyCredit_coupons, settle_coupons, hsel]
  · intro cp hcp
    rw [hcp] at hsel
    unfold autoCoupon at hcp
    have hmemf := selectBestCoupon_mem hcp
    obtain ⟨hmem, hpred⟩ := List.mem_filter.mp hmemf
    simp only [Bool.and_eq_true, beq_iff_eq, Bool.not_eq_true', decide_eq_true_eq] at hpred
    refine ⟨hmem, hpred.1.1, hpred.1.2, hpred.2, ?_, ?_, ?_⟩
    · intro c hcmem hcu hcused hcexp
      have hcf : c ∈ db.coupons.filter
          (fun cp => cp.userId == req.userId && !cp.isUsed &&
            decide (now ≤ cp.expiresAt)) := by
        rw [List.mem_filter]
        refine ⟨hcmem, ?_⟩
        simp [hcu, hcused, hcexp]
      exact selectBestCoupon_maximal hcp c hcf
    · subst htxn
      rw [settle_txn]
      show discountOf (selectedCoupon db req now) tot =
        Int.fdiv (tot * cp.discountPercent) 100
      rw [hsel]
      rfl
    · subst hdb'
      rw [applyCredit_coupons, settle_coupons, hsel]

/-- C4 amended: starting from a store whose tickets satisfy
0 ≤ sold ≤ quantity and whose events satisfy
0 ≤ bookedSeats ≤ availableSeats (with primary-key-unique ids), any single
successful bookTickets call whose item list names pairwise distinct
ticketIds leaves every ticket with sold ≤ quantity and every event with
bookedSeats ≤ availableSeats.  (With a duplicated ticketId the per-ticket
bound can be violated, see the counterexample.) -/
theorem c4_no_oversell_distinct_items (db : DB) (req : BookingRequest)
    (now : Nat) (db' : DB) (txn : Transaction)
    (hT : ∀ t ∈ db.tickets, 0 ≤ t.sold ∧ t.sold ≤ t.quantity)
    (hE : ∀ e ∈ db.events, 0 ≤ e.bookedSeats ∧ e.bookedSeats ≤ e.availableSeats)
    (hdistinct : (req.items.map (fun it => it.ticketId)).Nodup)
    (hTid : (db.tickets.map (fun t => t.id)).Nodup)
    (hEid : (db.events.map (fun e => e.id)).Nodup)
    (h : bookTickets db req now = .ok (db', txn)) :
    (∀ t ∈ db'.tickets, t.sold ≤ t.quantity) ∧
    (∀ e ∈ db'.events, e.bookedSeats ≤ e.availableSeats) := by
  obtain ⟨event, tot, ups, user, hev, hstat, hval, hseats, huser, hdb', htxn⟩ :=
    bookTickets_ok h
  have hids := validateItems_ids hval
  have hupnd : (ups.map (fun u => u.id)).Nodup := by
    rw [hids]
    exact hdistinct
  subst hdb'
  constructor
  · intro t' ht'
    rw [applyCredit_tickets, settle_tickets, applyTicketUpdates_eq] at ht'
    obtain ⟨t, htm, rfl⟩ := List.mem_map.mp ht'
    show t.sold + soldDelta t.id ups ≤ t.quantity
    by_cases hin : t.id ∈ ups.map (fun u => u.id)
    · obtain ⟨u, hum, huid⟩ := List.mem_map.mp hin
      obtain ⟨t0, ht0mem, ht0id, _, ht0cap⟩ := validateItems_mem hval u hum
      simp only [eventTickets] at ht0mem
      have ht0db : t0 ∈ db.tickets := (List.mem_filter.mp ht0mem).1
      have heq : t = t0 :=
        List.inj_on_of_nodup_map hTid htm ht0db (by rw [ht0id, huid])
      have hdelta : soldDelta t.id ups = u.quantity := by
        rw [← huid]
        exact soldDelta_of_nodup hupnd hum
      rw [hdelta, heq]
      exact ht0cap
    · rw [soldDelta_of_not_mem hin]
      have := hT t htm
      omega
  · intro e' he'
    rw [applyCredit_events, settle_events] at he'
    obtain ⟨e, hem, rfl⟩ := List.mem_map.mp he'
    by_cases hid : e.id = req.eventId
    · have hevmem : event ∈ db.events := List.mem_of_find?_eq_some hev
      have hevid : event.id = req.eventId := by
        simpa using List.find?_some hev
      have heq : e = event :=
        List.inj_on_of_nodup_map hEid hem hevmem (by rw [hid, hevid])
      rw [if_pos (by simp [hid])]
      show e.bookedSeats + totalQuantity req.items ≤ e.availableSeats
      rw [heq]
      exact hseats
    · rw [if_neg (by simp [hid])]
      exact (hE e hem).2

theorem applyCredit_users_none (db : DB) : (applyCredit db none).users = db.users := rfl

theorem applyCredit_users_some (db : DB) (c : Credit) :
    (applyCredit db (some c)).users = updateUserBalance db.users c.userId c.grant.amount := rfl

theorem applyCredit_points_none (db : DB) : (applyCredit db none).points = db.points := rfl

theorem applyCredit_points_some (db : DB) (c : Credit) :
    (applyCredit db (some c)).points = db.points ++ [c.grant] := rfl

theorem markPointsUsed_length (points : List Point) (ids : List Nat) (uid : Nat) :
    (markPointsUsed points ids uid).length = points.length := by
  unfold markPointsUsed
  exact List.length_map _ _

theorem settle_points_length (db : DB) (req : BookingRequest) (now : Nat)
    (tot : Int) (ups : List TicketUpdate) (user : User) :
    (settle db req now tot ups user).1.points.length = db.points.length := by
  rw [settle_points]
  by_cases hp : pointsUsedOf db req now tot user > 0
  · rw [if_pos hp, markPointsUsed_length]
  · rw [if_neg hp]

theorem finalAmountOf_nonneg (db : DB) (req : BookingRequest) (now : Nat)
    (tot : Int) (user : User) :
    0 ≤ finalAmountOf db req now tot user := by
  have := pointsUsedOf_le_cap db req now tot user
  unfold finalAmountOf
  omega

theorem earned_nonneg (db : DB) (req : BookingRequest) (now : Nat)
    (tot : Int) (user : User) :
    0 ≤ calculatePoints (finalAmountOf db req now tot user) := by
  unfold calculatePoints
  exact Int.fdiv_nonneg (finalAmountOf_nonneg db req now tot user) (by norm_num)

theorem pointsUsedOf_nonneg (db : DB) (req : BookingRequest) (now : Nat)
    (tot : Int) (user : User)
    (htot : 0 ≤ tot) (hb : 0 ≤ user.pointsBalance) (hreqp : 0 ≤ req.pointsToUse)
    (hpct : ∀ c ∈ db.coupons, 0 ≤ c.discountPercent ∧ c.discountPercent ≤ 100) :
    0 ≤ pointsUsedOf db req now tot user := by
  have hdle : discountOf (selectedCoupon db req now) tot ≤ tot := by
    apply discountOf_le htot
    intro c hc
    exact (hpct c (selectedCoupon_mem hc)).2
  unfold pointsUsedOf
  exact le_min hreqp (le_min hb (by omega))

/-- Net effect of the debit and the credit on the requesting user's cached
balance: the balance is decremented by pointsUsed and incremented by the
earned points. -/
theorem findUser_after_book (db : DB) (req : BookingRequest) (now : Nat)
    (tot : Int) (ups : List TicketUpdate) (user : User)
    (hu : findUser db.users req.userId = some user)
    (hp : 0 ≤ pointsUsedOf db req now tot user) :
    findUser (applyCredit (settle db req now tot ups user).1
        (settle db req now tot ups user).2.2).users req.userId =
      some { user with pointsBalance := (user.pointsBalance
        - pointsUsedOf db req now tot user
        + calculatePoints (finalAmountOf db req now tot user)) } := by
  have he := earned_nonneg db req now tot user
  rw [settle_credit]
  by_cases hegt : calculatePoints (finalAmountOf db req now tot user) > 0
  · rw [if_pos hegt]
    rw [applyCredit_users_some, settle_users]
    by_cases hpgt : pointsUsedOf db req now tot user > 0
    · rw [if_pos hpgt]
      rw [findUser_updateUserBalance, findUser_updateUserBalance, hu]
      simp only [Option.map_some, Option.map_some', Option.some.injEq, User.mk.injEq]
      exact ⟨trivial, by ring⟩
    · have hp0 : pointsUsedOf db req now tot user = 0 := by omega
      rw [if_neg hpgt]
      rw [findUser_updateUserBalance, hu, hp0]
      simp only [Option.map_some, Option.map_some', Option.some.injEq, User.mk.injEq]
      exact ⟨trivial, by ring⟩
  · have he0 : calculatePoints (finalAmountOf db req now tot user) = 0 := by omega
    rw [if_neg hegt]
    rw [applyCredit_users_none, settle_users, he0]
    by_cases hpgt : pointsUsedOf db req now tot user > 0
    · rw [if_pos hpgt]
      rw [findUser_updateUserBalance, hu]
      simp only [Option.map_some, Option.map_some', Option.some.injEq, User.mk.injEq]
      exact ⟨trivial, by ring⟩
    · have hp0 : pointsUsedOf db req now tot user = 0 := by omega
      rw [if_neg hpgt, hu, hp0]
      simp

/-- C6 amended: the points-debit step of a successful booking decrements the
cached pointsBalance by exactly pointsUsed (the credit then adds the earned
points), while the grants the FIFO loop marks used total at most
pointsUsed — the marked total can be strictly smaller, so the
cache-equals-ledger invariant is not preserved in general. -/
theorem c6_debit_balance_vs_ledger (db : DB) (req : BookingRequest) (now : Nat)
    (db' : DB) (txn : Transaction) (user : User)
    (hu : findUser db.users req.userId = some user)
    (hb : 0 ≤ user.pointsBalance)
    (hreq : requestValid req)
    (hpct : ∀ c ∈ db.coupons, 0 ≤ c.discountPercent ∧ c.discountPercent ≤ 100)
    (hprice : ∀ t ∈ db.tickets, 0 ≤ t.price)
    (h : bookTickets db req now = .ok (db', txn)) :
    (∃ u', findUser db'.users req.userId = some u' ∧
      u'.pointsBalance = user.pointsBalance - txn.pointsUsed +
        calculatePoints txn.finalAmount) ∧
    (fifoConsume txn.pointsUsed (userLivePoints db.points req.userId now)).2 ≤
      txn.pointsUsed := by
  obtain ⟨event, tot, ups, user2, hev, hstat, hval, hseats, hu2, hdb', htxn⟩ :=
    bookTickets_ok h
  rw [hu] at hu2
  obtain rfl : user = user2 := Option.some.inj hu2
  have htot : 0 ≤ tot :=
    validateItems_total_nonneg hval
      (fun t ht => hprice t (List.mem_filter.mp ht).1) hreq.1
  have hp : 0 ≤ pointsUsedOf db req now tot user :=
    pointsUsedOf_nonneg db req now tot user htot hb hreq.2 hpct
  subst hdb' htxn
  constructor
  · exact ⟨_, findUser_after_book db req now tot ups user hu hp, rfl⟩
  · exact fifoConsume_total_le _ _ hp

/-- C7: after a successful booking the user is credited exactly
floor(finalAmount / 1000) points: when that number is positive exactly one
new grant is appended, carrying that amount and expiring three months
after the credit, and the cached balance ends at
balance − pointsUsed + earned; when it is zero no grant is created. -/
theorem c7_earned_points_credit (db : DB) (req : BookingRequest) (now : Nat)
    (db' : DB) (txn : Transaction) (user : User)
    (hu : findUser db.users req.userId = some user)
    (hb : 0 ≤ user.pointsBalance)
    (hreq : requestValid req)
    (hpct : ∀ c ∈ db.coupons, 0 ≤ c.discountPercent ∧ c.discountPercent ≤ 100)
    (hprice : ∀ t ∈ db.tickets, 0 ≤ t.price)
    (h : bookTickets db req now = .ok (db', txn)) :
    (0 < calculatePoints txn.finalAmount →
      db'.points.length = db.points.length + 1 ∧
      ∃ g, db'.points.getLast? = some g ∧
        g.amount = calculatePoints txn.finalAmount ∧
        g.earnedById = req.userId ∧
        g.expiresAt = addThreeMonths now ∧
        g.isUsed = false) ∧
    (calculatePoints txn.finalAmount ≤ 0 →
      db'.points.length = db.points.length) ∧
    (∃ u', findUser db'.users req.userId = some u' ∧
      u'.pointsBalance = user.pointsBalance - txn.pointsUsed +
        calculatePoints txn.finalAmount) := by
  obtain ⟨event, tot, ups, user2, hev, hstat, hval, hseats, hu2, hdb', htxn⟩ :=
    bookTickets_ok h
  rw [hu] at hu2
  obtain rfl : user = user2 := Option.some.inj hu2
  have htot : 0 ≤ tot :=
    validateItems_total_nonneg hval
      (fun t ht => hprice t (List.mem_filter.mp ht).1) hreq.1
  have hp : 0 ≤ pointsUsedOf db req now tot user :=
    pointsUsedOf_nonneg db req now tot user htot hb hreq.2 hpct
  subst hdb' htxn
  refine ⟨?_, ?_, ?_⟩
  · intro hegt
    have hegt2 : calculatePoints (finalAmountOf db req now tot user) > 0 := hegt
    rw [settle_credit, if_pos hegt2, applyCredit_points_some]
    constructor
    · rw [List.length_append, settle_points_length]
      rfl
    · refine ⟨_, List.getLast?_concat _, rfl, rfl, rfl, rfl⟩
  · intro hele
    have hele2 : calculatePoints (finalAmountOf db req now tot user) ≤ 0 := hele
    have hne : ¬ (calculatePoints (finalAmountOf db req now tot user) > 0) :=
      not_lt.mpr hele2
    rw [settle_credit, if_neg hne, applyCredit_points_none]
    exact settle_points_length db req now tot ups user
  · exact ⟨_, findUser_after_book db req now tot ups user hu hp, rfl⟩


/-- Decidable equality on Except, needed to evaluate whole booking outcomes
on concrete stores. -/
instance {α β : Type} [DecidableEq α] [DecidableEq β] :
    DecidableEq (Except α β) := fun a b =>
  match a, b with
  | .error x, .error y =>
    match decEq x y with
    | isTrue h => isTrue (h ▸ rfl)
    | isFalse h => isFalse (fun he => h (Except.error.inj he))
  | .error _, .ok _ => isFalse (fun he => Except.noConfusion he)
  | .ok _, .error _ => isFalse (fun he => Except.noConfusion he)
  | .ok x, .ok y =>
    match decEq x y with
    | isTrue h => isTrue (h ▸ rfl)
    | isFalse h => isFalse (fun he => h (Except.ok.inj he))

/-! Concrete scenarios: counterexamples, the commit-abort divergence, and
witnesses instantiating the universally quantified theorems. -/

/-- Store with the given events, tickets, users, coupons and points, empty
transaction tables and the given id counter. -/
def mkDB (ev : List Event) (tk : List Ticket) (us : List User)
    (cp : List DiscountCoupon) (pt : List Point) (nid : Nat) : DB :=
  ⟨ev, tk, us, cp, pt, [], [], [], nid⟩

def c1xdb : DB :=
  mkDB [⟨1, .PUBLISHED, 10, 0⟩] [⟨1, 1, 10000, 10, 0⟩] [⟨1, 0⟩]
    [⟨7, 2, "OTHER", 15, true, 0, 0⟩] [] 0

def c1xreq : BookingRequest := ⟨1, 1, [⟨1, 1⟩], some "NOPE", 0⟩

def c1xdbE : DB :=
  { events := [⟨1, .PUBLISHED, 10, 1⟩]
    tickets := [⟨1, 1, 10000, 10, 1⟩]
    users := [⟨1, 10⟩]
    coupons := [⟨7, 2, "OTHER", 15, true, 0, 0⟩]
    points := [⟨1, 1, 10, false, none, 8, 5⟩]
    transactions := [⟨0, 1, 1, 10000, 0, 10000, 0, .COMPLETED⟩]
    transactionItems := [⟨0, 1, 1, 10000, 10000⟩]
    transactionCoupons := []
    nextId := 2 }

def c1xtxn : Transaction := ⟨0, 1, 1, 10000, 0, 10000, 0, .COMPLETED⟩

/-- C1 counterexample: the request names coupon code NOPE, which matches no
stored coupon, yet the booking succeeds with discountAmount = 0 — it does
not fail with any InvalidCoupon error (no such error exists in the
handler). -/
theorem c1_explicit_coupon_counterexample :
    bookTickets c1xdb c1xreq 5 = Except.ok (c1xdbE, c1xtxn) ∧
    c1xtxn.discountAmount = 0 :=
  ⟨by decide, by decide⟩

def c1wdb : DB :=
  mkDB [⟨1, .PUBLISHED, 8, 0⟩] [⟨1, 1, 4000, 6, 0⟩] [⟨1, 0⟩]
    [⟨3, 1, "MINE", 10, false, 99, 1⟩] [] 0

def c1wreq : BookingRequest := ⟨1, 1, [⟨1, 1⟩], some "GHOST", 0⟩

def c1wdbE : DB :=
  { events := [⟨1, .PUBLISHED, 8, 1⟩]
    tickets := [⟨1, 1, 4000, 6, 1⟩]
    users := [⟨1, 4⟩]
    coupons := [⟨3, 1, "MINE", 10, false, 99, 1⟩]
    points := [⟨1, 1, 4, false, none, 5, 2⟩]
    transactions := [⟨0, 1, 1, 4000, 0, 4000, 0, .COMPLETED⟩]
    transactionItems := [⟨0, 1, 1, 4000, 4000⟩]
    transactionCoupons := []
    nextId := 2 }

def c1wtxn : Transaction := ⟨0, 1, 1, 4000, 0, 4000, 0, .COMPLETED⟩

/-- C1 witness: concrete instance of the amended theorem (an own valid coupon
exists, but the wrong explicit code yields zero discount and untouched
coupons). -/
theorem c1_invalid_coupon_ignored_witness :
    c1wtxn.discountAmount = 0 ∧ c1wdbE.coupons = c1wdb.coupons :=
  c1_invalid_coupon_ignored c1wdb c1wreq 2 c1wdbE c1wtxn "GHOST"
    (by decide) (by decide) (by decide)

def c2wdb : DB :=
  mkDB [⟨1, .PUBLISHED, 5, 0⟩] [⟨1, 1, 777, 3, 0⟩] [⟨1, 0⟩] [] [] 0

def c2wreq : BookingRequest := ⟨1, 1, [⟨1, 1⟩], none, 0⟩

def c2wdbE : DB :=
  { events := [⟨1, .PUBLISHED, 5, 1⟩]
    tickets := [⟨1, 1, 777, 3, 1⟩]
    users := [⟨1, 0⟩]
    coupons := []
    points := []
    transactions := [⟨0, 1, 1, 777, 0, 777, 0, .COMPLETED⟩]
    transactionItems := [⟨0, 1, 1, 777, 777⟩]
    transactionCoupons := []
    nextId := 2 }

def c2wtxn : Transaction := ⟨0, 1, 1, 777, 0, 777, 0, .COMPLETED⟩

/-- C2 witness: the price identity at a concrete successful booking. -/
theorem c2_price_identity_witness :
    c2wtxn.finalAmount = c2wtxn.totalAmount - c2wtxn.discountAmount -
      c2wtxn.pointsUsed ∧ 0 ≤ c2wtxn.finalAmount :=
  c2_price_identity c2wdb c2wreq 7 c2wdbE c2wtxn (by decide)

def c3wdb : DB :=
  mkDB [⟨1, .PUBLISHED, 10, 0⟩] [⟨1, 1, 6000, 10, 0⟩] [⟨1, 5000⟩] []
    [⟨1, 1, 5000, false, none, 100, 0⟩] 10

def c3wreq : BookingRequest := ⟨1, 1, [⟨1, 1⟩], none, 8000⟩

def c3wuser : User := ⟨1, 5000⟩

def c3wdbE : DB :=
  { events := [⟨1, .PUBLISHED, 10, 1⟩]
    tickets := [⟨1, 1, 6000, 10, 1⟩]
    users := [⟨1, 1⟩]
    coupons := []
    points := [⟨1, 1, 5000, true, some 1, 100, 0⟩, ⟨11, 1, 1, false, none, 3, 0⟩]
    transactions := [⟨10, 1, 1, 6000, 0, 1000, 5000, .COMPLETED⟩]
    transactionItems := [⟨10, 1, 1, 6000, 6000⟩]
    transactionCoupons := []
    nextId := 12 }

def c3wtxn : Transaction := ⟨10, 1, 1, 6000, 0, 1000, 5000, .COMPLETED⟩

/-- C3 witness: the spec's scenario 2 — balance 5000, request 8000 points on
a 6000 total: pointsUsed is capped to 5000 and no error occurs. -/
theorem c3_points_cap_witness :
    c3wtxn.pointsUsed =
      min c3wreq.pointsToUse
        (min c3wuser.pointsBalance (c3wtxn.totalAmount - c3wtxn.discountAmount)) :=
  c3_points_cap c3wdb c3wreq 0 c3wdbE c3wtxn c3wuser (by decide) (by decide)

def c4xdb : DB :=
  mkDB [⟨1, .PUBLISHED, 2, 0⟩] [⟨1, 1, 100, 1, 0⟩] [⟨1, 0⟩] [] [] 0

def c4xreq : BookingRequest := ⟨1, 1, [⟨1, 1⟩, ⟨1, 1⟩], none, 0⟩

def c4xdbE : DB :=
  { events := [⟨1, .PUBLISHED, 2, 2⟩]
    tickets := [⟨1, 1, 100, 1, 2⟩]
    users := [⟨1, 0⟩]
    coupons := []
    points := []
    transactions := [⟨0, 1, 1, 200, 0, 200, 0, .COMPLETED⟩]
    transactionItems := [⟨0, 1, 1, 100, 100⟩, ⟨0, 1, 1, 100, 100⟩]
    transactionCoupons := []
    nextId := 2 }

def c4xtxn : Transaction := ⟨0, 1, 1, 200, 0, 200, 0, .COMPLETED⟩

/-- C4 counterexample: a ticket with quantity 1 and sold 0, booked twice in
one request through two line items with the same ticketId: each per-item
check reads the original sold value, the call succeeds, and the ticket
ends with sold = 2 > quantity = 1. -/
theorem c4_duplicate_items_counterexample :
    bookTickets c4xdb c4xreq 0 = Except.ok (c4xdbE, c4xtxn) ∧
    c4xdbE.tickets = [⟨1, 1, 100, 1, 2⟩] :=
  ⟨by decide, by decide⟩

def c4wdb : DB :=
  mkDB [⟨1, .PUBLISHED, 5, 0⟩] [⟨1, 1, 100, 3, 1⟩, ⟨2, 1, 200, 2, 0⟩]
    [⟨1, 0⟩] [] [] 0

def c4wreq : BookingRequest := ⟨1, 1, [⟨1, 2⟩, ⟨2, 1⟩], none, 0⟩

def c4wdbE : DB :=
  { events := [⟨1, .PUBLISHED, 5, 3⟩]
    tickets := [⟨1, 1, 100, 3, 3⟩, ⟨2, 1, 200, 2, 1⟩]
    users := [⟨1, 0⟩]
    coupons := []
    points := []
    transactions := [⟨0, 1, 1, 400, 0, 400, 0, .COMPLETED⟩]
    transactionItems := [⟨0, 1, 2, 100, 200⟩, ⟨0, 2, 1, 200, 200⟩]
    transactionCoupons := []
    nextId := 2 }

def c4wtxn : Transaction := ⟨0, 1, 1, 400, 0, 400, 0, .COMPLETED⟩

/-- C4 witness: a distinct-ticketId booking keeps every ticket within
quantity and the event within availableSeats. -/
theorem c4_no_oversell_distinct_items_witness :
    (∀ t ∈ c4wdbE.tickets, t.sold ≤ t.quantity) ∧
    (∀ e ∈ c4wdbE.events, e.bookedSeats ≤ e.availableSeats) :=
  c4_no_oversell_distinct_items c4wdb c4wreq 0 c4wdbE c4wtxn
    (by decide) (by decide) (by decide) (by decide) (by decide) (by decide)

def c5db : DB :=
  mkDB [⟨1, .PUBLISHED, 9, 0⟩] [⟨1, 1, 2500, 4, 0⟩] [⟨1, 0⟩] [] [] 0

def c5req : BookingRequest := ⟨1, 1, [⟨1, 1⟩], none, 0⟩

def c5dbE : DB :=
  { events := [⟨1, .PUBLISHED, 9, 1⟩]
    tickets := [⟨1, 1, 2500, 4, 1⟩]
    users := [⟨1, 2⟩]
    coupons := []
    points := [⟨1, 1, 2, false, none, 7, 4⟩]
    transactions := [⟨0, 1, 1, 2500, 0, 2500, 0, .COMPLETED⟩]
    transactionItems := [⟨0, 1, 1, 2500, 2500⟩]
    transactionCoupons := []
    nextId := 2 }

def c5txn : Transaction := ⟨0, 1, 1, 2500, 0, 2500, 0, .COMPLETED⟩

def c5abortdb : DB :=
  mkDB [⟨1, .PUBLISHED, 9, 0⟩] [⟨1, 1, 2500, 4, 0⟩] [⟨1, 2⟩] []
    [⟨1, 1, 2, false, none, 7, 4⟩] 0

/-- C5: the earned-points credit is written through the global client inside
the transaction callback (addPointsToUser uses db, not the prisma handle),
so when the atomic unit aborts at commit time every transaction-scoped
write rolls back but the user keeps the credited balance and grant — the
pre-attempt state is not restored although the booking failed. -/
theorem c5_credit_escapes_aborted_commit :
    bookTickets c5db c5req 4 = Except.ok (c5dbE, c5txn) ∧
    bookTicketsAborted c5db c5req 4 = c5abortdb ∧
    c5abortdb.users ≠ c5db.users ∧
    c5abortdb.points ≠ c5db.points :=
  ⟨by decide, by decide, by decide, by decide⟩

def c6xdb : DB :=
  mkDB [⟨1, .PUBLISHED, 10, 0⟩] [⟨1, 1, 3000, 10, 0⟩] [⟨1, 5000⟩] []
    [⟨1, 1, 5000, false, none, 100, 0⟩] 0

def c6xreq : BookingRequest := ⟨1, 1, [⟨1, 1⟩], none, 3000⟩

def c6xdbE : DB :=
  { events := [⟨1, .PUBLISHED, 10, 1⟩]
    tickets := [⟨1, 1, 3000, 10, 1⟩]
    users := [⟨1, 2000⟩]
    coupons := []
    points := [⟨1, 1, 5000, false, none, 100, 0⟩]
    transactions := [⟨0, 1, 1, 3000, 0, 0, 3000, .COMPLETED⟩]
    transactionItems := [⟨0, 1, 1, 3000, 3000⟩]
    transactionCoupons := []
    nextId := 2 }

def c6xtxn : Transaction := ⟨0, 1, 1, 3000, 0, 0, 3000, .COMPLETED⟩

/-- C6 counterexample: the user's single live grant holds 5000 points and the
booking debits 3000: the balance drops to 2000 but no grant fits within
3000, so none is marked used and the live-grant sum stays 5000 — the
balance is not decremented by the total of the grants marked used, and
the cache-equals-ledger invariant breaks. -/
theorem c6_cache_ledger_drift_counterexample :
    bookTickets c6xdb c6xreq 0 = Except.ok (c6xdbE, c6xtxn) ∧
    c6xdb.users = [⟨1, 5000⟩] ∧ liveSum c6xdb.points 1 0 = 5000 ∧
    c6xdbE.users = [⟨1, 2000⟩] ∧ liveSum c6xdbE.points 1 0 = 5000 :=
  ⟨by decide, by decide, by decide, by decide, by decide⟩

def c6wdb : DB :=
  mkDB [⟨1, .PUBLISHED, 10, 0⟩] [⟨1, 1, 3000, 10, 0⟩] [⟨1, 3000⟩] []
    [⟨1, 1, 1000, false, none, 50, 0⟩, ⟨2, 1, 2000, false, none, 50, 1⟩] 0

def c6wreq : BookingRequest := ⟨1, 1, [⟨1, 1⟩], none, 3000⟩

def c6wuser : User := ⟨1, 3000⟩

def c6wdbE : DB :=
  { events := [⟨1, .PUBLISHED, 10, 1⟩]
    tickets := [⟨1, 1, 3000, 10, 1⟩]
    users := [⟨1, 0⟩]
    coupons := []
    points := [⟨1, 1, 1000, true, some 1, 50, 0⟩, ⟨2, 1, 2000, true, some 1, 50, 1⟩]
    transactions := [⟨0, 1, 1, 3000, 0, 0, 3000, .COMPLETED⟩]
    transactionItems := [⟨0, 1, 1, 3000, 3000⟩]
    transactionCoupons := []
    nextId := 2 }

def c6wtxn : Transaction := ⟨0, 1, 1, 3000, 0, 0, 3000, .COMPLETED⟩

/-- C6 witness: concrete instance of the amended theorem. -/
theorem c6_debit_balance_vs_ledger_witness :
    (∃ u', findUser c6wdbE.users c6wreq.userId = some u' ∧
      u'.pointsBalance = c6wuser.pointsBalance - c6wtxn.pointsUsed +
        calculatePoints c6wtxn.finalAmount) ∧
    (fifoConsume c6wtxn.pointsUsed (userLivePoints c6wdb.points c6wreq.userId 0)).2 ≤
      c6wtxn.pointsUsed :=
  c6_debit_balance_vs_ledger c6wdb c6wreq 0 c6wdbE c6wtxn c6wuser
    (by decide) (by decide) ⟨by decide, by decide⟩ (by decide) (by decide)
    (by decide)

def c7wdb : DB :=
  mkDB [⟨1, .PUBLISHED, 7, 0⟩] [⟨1, 1, 2500, 4, 0⟩] [⟨1, 0⟩] [] [] 20

def c7wreq : BookingRequest := ⟨1, 1, [⟨1, 1⟩], none, 0⟩

def c7wuser : User := ⟨1, 0⟩

def c7wdbE : DB :=
  { events := [⟨1, .PUBLISHED, 7, 1⟩]
    tickets := [⟨1, 1, 2500, 4, 1⟩]
    users := [⟨1, 2⟩]
    coupons := []
    points := [⟨21, 1, 2, false, none, 9, 6⟩]
    transactions := [⟨20, 1, 1, 2500, 0, 2500, 0, .COMPLETED⟩]
    transactionItems := [⟨20, 1, 1, 2500, 2500⟩]
    transactionCoupons := []
    nextId := 22 }

def c7wtxn : Transaction := ⟨20, 1, 1, 2500, 0, 2500, 0, .COMPLETED⟩

/-- C7 witness: the spec's scenario 4 — finalAmount 2500 credits
floor(2500/1000) = 2 points as one grant expiring three months after the
credit, and the balance rises by 2. -/
theorem c7_earned_points_credit_witness :
    (0 < calculatePoints c7wtxn.finalAmount →
      c7wdbE.points.length = c7wdb.points.length + 1 ∧
      ∃ g, c7wdbE.points.getLast? = some g ∧
        g.amount = calculatePoints c7wtxn.finalAmount ∧
        g.earnedById = c7wreq.userId ∧
        g.expiresAt = addThreeMonths 6 ∧
        g.isUsed = false) ∧
    (calculatePoints c7wtxn.finalAmount ≤ 0 →
      c7wdbE.points.length = c7wdb.points.length) ∧
    (∃ u', findUser c7wdbE.users c7wreq.userId = some u' ∧
      u'.pointsBalance = c7wuser.pointsBalance - c7wtxn.pointsUsed +
        calculatePoints c7wtxn.finalAmount) :=
  c7_earned_points_credit c7wdb c7wreq 6 c7wdbE c7wtxn c7wuser
    (by decide) (by decide) ⟨by decide, by decide⟩ (by decide) (by decide)
    (by decide)

def c8wdb : DB :=
  mkDB [⟨1, .DRAFT, 10, 0⟩] [⟨1, 1, 500, 5, 0⟩] [⟨1, 0⟩] [] [] 0

def c8wreq : BookingRequest := ⟨1, 1, [⟨1, 1⟩], none, 0⟩

/-- C8 witness: the spec's scenario 5 — a DRAFT event makes every booking
attempt fail with the event-not-available error and leaves the store
byte-for-byte unchanged, even under an aborted commit. -/
theorem c8_event_not_bookable_witness :
    bookTickets c8wdb c8wreq 3 = Except.error BookErr.eventNotAvailable ∧
    bookTicketsAborted c8wdb c8wreq 3 = c8wdb :=
  (c8_event_not_bookable c8wdb c8wreq 3).2 ⟨1, .DRAFT, 10, 0⟩
    (by decide) (by decide)

def c9xdb : DB :=
  mkDB [⟨1, .PUBLISHED, 10, 0⟩] [⟨1, 1, 10000, 10, 0⟩] [⟨1, 0⟩]
    [⟨1, 1, "NEW", 20, false, 100, 10⟩, ⟨2, 1, "OLD", 20, false, 100, 5⟩] [] 0

def c9xreq : BookingRequest := ⟨1, 1, [⟨1, 1⟩], none, 0⟩

def c9xdbE : DB :=
  { events := [⟨1, .PUBLISHED, 10, 1⟩]
    tickets := [⟨1, 1, 10000, 10, 1⟩]
    users := [⟨1, 8⟩]
    coupons := [⟨1, 1, "NEW", 20, true, 100, 10⟩, ⟨2, 1, "OLD", 20, false, 100, 5⟩]
    points := [⟨1, 1, 8, false, none, 3, 0⟩]
    transactions := [⟨0, 1, 1, 10000, 2000, 8000, 0, .COMPLETED⟩]
    transactionItems := [⟨0, 1, 1, 10000, 10000⟩]
    transactionCoupons := [⟨0, 1⟩]
    nextId := 2 }

def c9xtxn : Transaction := ⟨0, 1, 1, 10000, 2000, 8000, 0, .COMPLETED⟩

/-- C9 counterexample: two unused unexpired coupons of the user tie at
discountPercent 20; the stored-first one has createdAt 10, the other has
createdAt 5.  The booking consumes the createdAt-10 coupon, not the
oldest one — there is no createdAt tie-break in the query. -/
theorem c9_tiebreak_counterexample :
    bookTickets c9xdb c9xreq 0 = Except.ok (c9xdbE, c9xtxn) ∧
    c9xdbE.coupons =
      [⟨1, 1, "NEW", 20, true, 100, 10⟩, ⟨2, 1, "OLD", 20, false, 100, 5⟩] :=
  ⟨by decide, by decide⟩

def c9wdb : DB :=
  mkDB [⟨1, .PUBLISHED, 10, 0⟩] [⟨1, 1, 10000, 10, 0⟩] [⟨1, 0⟩]
    [⟨5, 1, "TEN", 10, false, 50, 3⟩] [] 0

def c9wreq : BookingRequest := ⟨1, 1, [⟨1, 1⟩], none, 0⟩

def c9wcp : DiscountCoupon := ⟨5, 1, "TEN", 10, false, 50, 3⟩

def c9wdbE : DB :=
  { events := [⟨1, .PUBLISHED, 10, 1⟩]
    tickets := [⟨1, 1, 10000, 10, 1⟩]
    users := [⟨1, 9⟩]
    coupons := [⟨5, 1, "TEN", 10, true, 50, 3⟩]
    points := [⟨1, 1, 9, false, none, 3, 0⟩]
    transactions := [⟨0, 1, 1, 10000, 1000, 9000, 0, .COMPLETED⟩]
    transactionItems := [⟨0, 1, 1, 10000, 10000⟩]
    transactionCoupons := [⟨0, 5⟩]
    nextId := 2 }

def c9wtxn : Transaction := ⟨0, 1, 1, 10000, 1000, 9000, 0, .COMPLETED⟩

/-- C9 witness: with one valid coupon at 10 percent, the auto-apply branch
selects it, yields discountAmount = floor(10000 × 10 / 100) = 1000, and
marks it used. -/
theorem c9_auto_coupon_selects_highest_witness :
    c9wcp ∈ c9wdb.coupons ∧ c9wcp.userId = c9wreq.userId ∧
    c9wcp.isUsed = false ∧ (0 : Nat) ≤ c9wcp.expiresAt ∧
    (∀ c ∈ c9wdb.coupons, c.userId = c9wreq.userId → c.isUsed = false →
      (0 : Nat) ≤ c.expiresAt → c.discountPercent ≤ c9wcp.discountPercent) ∧
    c9wtxn.discountAmount = Int.fdiv (c9wtxn.totalAmount * c9wcp.discountPercent) 100 ∧
    c9wdbE.coupons = c9wdb.coupons.map
      (fun c => if c.id == c9wcp.id then { c with isUsed := true } else c) :=
  (c9_auto_coupon_selects_highest c9wdb c9wreq 0 c9wdbE c9wtxn
    (by decide) (by decide)).2 c9wcp (by decide)

def c10wdb : DB :=
  mkDB [⟨1, .PUBLISHED, 4, 0⟩] [⟨1, 1, 900, 2, 0⟩] [⟨1, 0⟩] [] [] 1

def c10wreq : BookingRequest := ⟨1, 1, [⟨1, 1⟩], none, 0⟩

def c10wdbE : DB :=
  { events := [⟨1, .PUBLISHED, 4, 1⟩]
    tickets := [⟨1, 1, 900, 2, 1⟩]
    users := [⟨1, 0⟩]
    coupons := []
    points := []
    transactions := [⟨1, 1, 1, 900, 0, 900, 0, .COMPLETED⟩]
    transactionItems := [⟨1, 1, 1, 900, 900⟩]
    transactionCoupons := []
    nextId := 3 }

def c10wtxn : Transaction := ⟨1, 1, 1, 900, 0, 900, 0, .COMPLETED⟩

/-- C10 witness: a concrete successful booking persists its transaction with
status COMPLETED. -/
theorem c10_status_completed_witness :
    c10wtxn.status = TxStatus.COMPLETED ∧
    c10wdbE.transactions = c10wdb.transactions ++ [c10wtxn] :=
  c10_status_completed c10wdb c10wreq 1 c10wdbE c10wtxn (by decide)

end MiniEvent
